import Mathlib

/-!
# lv_lib_tinygles: framebuffer bridge, camera and frame timing

A shallow embedding of `src/src/tinygl_interface.c` and
`src/src/lvgl_interface.c`.

* C `float`/`double` values are elements of an ordered field `R`
  (exact arithmetic); `unsigned int` is a `Nat` reduced modulo `2^32`,
  `uint16_t` modulo `2^16`, `uint8_t` modulo `2^8`; `int` values are
  integers (signed overflow has no defined behaviour in C and is outside
  the model).
* The file-level `static` variables of both C files are the fields of
  `State`; every C function becomes a function on `State`.
* Answers of the environment (the clock, `malloc`, `aligned_alloc`,
  `ZB_open`, `lv_canvas_create`) are explicit arguments.
* The C heap is a map from block addresses to cell lists together with
  the log of `free` calls.
-/

namespace TinyGLES

/-! ## 3dMath.h (the header is not part of the sources) -/

/-- The `Vec3` of 3dMath.h: three float components. -/
structure Vec3 (R : Type) where
  x : R
  y : R
  z : R
deriving DecidableEq

/-- The `Mat4` of 3dMath.h: `float m[16]`. -/
structure Mat4 (R : Type) where
  m : List R
deriving DecidableEq

/-- Modelled from the spec: `add_vec3` of 3dMath.h, which is not under
src/; the spec's "standard definition" of `add`, the component-wise sum. -/
def add_vec3 {R : Type} [Add R] (a b : Vec3 R) : Vec3 R :=
  { x := a.x + b.x, y := a.y + b.y, z := a.z + b.z }

/-- Modelled from the spec: `subv3` of 3dMath.h, which is not under src/;
the spec's "standard definition" of `sub`, the component-wise difference. -/
def subv3 {R : Type} [Sub R] (a b : Vec3 R) : Vec3 R :=
  { x := a.x - b.x, y := a.y - b.y, z := a.z - b.z }

/-- Modelled from the spec: `cross_vec3` of 3dMath.h, which is not under
src/; the spec's right-handed cross product. -/
def cross_vec3 {R : Type} [Mul R] [Sub R] (a b : Vec3 R) : Vec3 R :=
  { x := a.y * b.z - a.z * b.y
    y := a.z * b.x - a.x * b.z
    z := a.x * b.y - a.y * b.x }

/-- The remaining helpers the two C files call but do not define: the
3dMath.h functions that need square roots or trigonometry (or that the
spec does not describe), `gluPerspective`, and the `LV_COLOR_MAKE` macro,
the `TGL_FEATURE_RENDER_BITS` constant and the size of `lv_color_t` from
the two libraries' headers.
They are parameters of the model. -/
structure Extern (R : Type) where
  /-- The `lookAt(eye, center, up)` of 3dMath.h. -/
  lookAt : Vec3 R → Vec3 R → Vec3 R → Mat4 R
  /-- The `rotate(angles)` of 3dMath.h. -/
  rotate : Vec3 R → Mat4 R
  /-- The `normalize_vec3(v)` of 3dMath.h. -/
  normalize_vec3 : Vec3 R → Vec3 R
  /-- The `multvec3(a, b)` of 3dMath.h. -/
  multvec3 : Vec3 R → Vec3 R → Vec3 R
  /-- The `right_vec3(forward, up)` of 3dMath.h. -/
  right_vec3 : Vec3 R → Vec3 R → Vec3 R
  /-- The effect of `gluPerspective(fovy, aspect, zNear, zFar)` on the
  current matrix. -/
  gluPerspective : R → R → R → R → Mat4 R → Mat4 R
  /-- The `.full` value of `LV_COLOR_MAKE(r, g, b)`. -/
  LV_COLOR_MAKE : Nat → Nat → Nat → Nat
  /-- The compile-time constant `TGL_FEATURE_RENDER_BITS`. -/
  TGL_FEATURE_RENDER_BITS : Nat
  /-- The value of `sizeof(lv_color_t)`. -/
  sizeof_lv_color_t : Nat

/-! ## The rasterizer's matrix stacks -/

/-- The three matrix modes of the rasterizer. -/
inductive MatrixMode where
  | GL_MODELVIEW
  | GL_PROJECTION
  | GL_TEXTURE
deriving DecidableEq, Repr

/-- One matrix stack: the current matrix and the saved ones below it. -/
structure MatrixStack (R : Type) where
  top : Mat4 R
  saved : List (Mat4 R)
deriving DecidableEq

/-- Number of matrices on a stack. -/
def MatrixStack.depth {R : Type} (k : MatrixStack R) : Nat :=
  k.saved.length + 1

/-- The part of the rasterizer context the interface code acts on: the
matrix mode, the three matrix stacks, the matrices handed to
`glLoadMatrixf` (oldest first) and the overlay texts drawn (as the pair
of numbers printed). -/
structure GLContext (R : Type) where
  matrix_mode : MatrixMode
  modelview : MatrixStack R
  projection : MatrixStack R
  texture : MatrixStack R
  loads : List (Mat4 R)
  texts : List (R × R)

/-- The 4x4 identity as sixteen floats. -/
def identity_m {R : Type} [Zero R] [One R] : Mat4 R :=
  { m := [1, 0, 0, 0, 0, 1, 0, 0, 0, 0, 1, 0, 0, 0, 0, 1] }

/-- The stack selected by the matrix mode. -/
def GLContext.current {R : Type} (c : GLContext R) : MatrixStack R :=
  match c.matrix_mode with
  | .GL_MODELVIEW => c.modelview
  | .GL_PROJECTION => c.projection
  | .GL_TEXTURE => c.texture

/-- Replace the stack selected by the matrix mode. -/
def GLContext.setCurrent {R : Type} (c : GLContext R) (k : MatrixStack R) :
    GLContext R :=
  match c.matrix_mode with
  | .GL_MODELVIEW => { c with modelview := k }
  | .GL_PROJECTION => { c with projection := k }
  | .GL_TEXTURE => { c with texture := k }

/-- Modelled from the spec: `glInit` of the rasterizer, which is not under
src/; a fresh context has mode MODELVIEW and one identity on each stack. -/
def glInit {R : Type} [Zero R] [One R] (c : GLContext R) : GLContext R :=
  { matrix_mode := .GL_MODELVIEW
    modelview := { top := identity_m, saved := [] }
    projection := { top := identity_m, saved := [] }
    texture := { top := identity_m, saved := [] }
    loads := c.loads
    texts := c.texts }

/-- Modelled from the spec: `glMatrixMode` of the rasterizer's
matrix-stack calls, which is not under src/. -/
def glMatrixMode {R : Type} (mode : MatrixMode) (c : GLContext R) : GLContext R :=
  { c with matrix_mode := mode }

/-- Modelled from the spec: `glPushMatrix` of the rasterizer's
matrix-stack calls, which is not under src/; saves a copy of the current
matrix of the selected stack. -/
def glPushMatrix {R : Type} (c : GLContext R) : GLContext R :=
  c.setCurrent { top := c.current.top, saved := c.current.top :: c.current.saved }

/-- Modelled from the spec: `glPopMatrix` of the rasterizer's
matrix-stack calls, which is not under src/; restores the last saved
matrix of the selected stack (nothing to restore: no change). -/
def glPopMatrix {R : Type} (c : GLContext R) : GLContext R :=
  match c.current.saved with
  | [] => c
  | m :: rest => c.setCurrent { top := m, saved := rest }

/-- Modelled from the spec: `glLoadIdentity` of the rasterizer's
matrix-stack calls, which is not under src/. -/
def glLoadIdentity {R : Type} [Zero R] [One R] (c : GLContext R) : GLContext R :=
  c.setCurrent { c.current with top := identity_m }

/-- Modelled from the spec: `glLoadMatrixf` ("loadViewMatrix") of the
rasterizer, which is not under src/; replaces the current matrix of the
selected stack, and the call is logged. -/
def glLoadMatrixf {R : Type} (m : Mat4 R) (c : GLContext R) : GLContext R :=
  { c.setCurrent { c.current with top := m } with loads := c.loads ++ [m] }

/-- Modelled from the spec: `glDrawText` ("drawText") of the rasterizer,
which is not under src/; no effect on the matrix stacks, the text is
logged as the two numbers printed into it. -/
def glDrawText {R : Type} (fps renderTime : R) (c : GLContext R) : GLContext R :=
  { c with texts := c.texts ++ [(fps, renderTime)] }

/-! ## The C heap -/

/-- The heap: the live blocks by base address (the cells of each, one
`Nat` per array element), the sizes asked of the allocators and the
arguments of `free`, both in call order. -/
structure Heap where
  mem : Nat → Option (List Nat)
  allocs : List Int
  frees : List Nat

/-- An allocator call (`malloc`, `aligned_alloc`) asking for `size`
bytes: `res` is the allocator's answer (`none` for NULL) and `cells` the
indeterminate contents of the new block. -/
def Heap.allocate (h : Heap) (size : Int) (res : Option Nat) (cells : List Nat) : Heap :=
  match res with
  | none => { h with allocs := h.allocs ++ [size] }
  | some p =>
    { h with mem := fun q => if q = p then some cells else h.mem q
             allocs := h.allocs ++ [size] }

/-- The call `free(p)`: the block stops being live and the call is logged. -/
def Heap.free (h : Heap) (p : Nat) : Heap :=
  { h with mem := fun q => if q = p then none else h.mem q
           frees := h.frees ++ [p] }

/-- The read `p[i]`; `none` when `p` is no live block or `i` is past its end. -/
def Heap.read (h : Heap) (p i : Nat) : Option Nat :=
  match h.mem p with
  | none => none
  | some cells => cells[i]?

/-- The write `p[i] = v`; `none` when `p` is no live block or `i` is past
its end. -/
def Heap.write (h : Heap) (p i v : Nat) : Option Heap :=
  match h.mem p with
  | none => none
  | some cells =>
    if i < cells.length then
      some { h with mem := fun q => if q = p then some (cells.set i v) else h.mem q }
    else none

/-- Every cell of block `p` set to `v` (a block that is not live: no change). -/
def Heap.fill (h : Heap) (p v : Nat) : Heap :=
  match h.mem p with
  | none => h
  | some cells =>
    { h with mem := fun q => if q = p then some (List.replicate cells.length v) else h.mem q }

/-! ## Static variables of the two C files -/

/-- The two rasterizer modes `tinygl_init` selects from. -/
inductive ZBMode where
  | ZB_MODE_RGBA
  | ZB_MODE_5R6G5B
deriving DecidableEq, Repr

/-- The `ZBuffer` handle as far as the interface code sees it: the size,
the mode and the address of the pixel buffer. -/
structure ZBuffer where
  xsize : Int
  ysize : Int
  mode : ZBMode
  pbuf : Nat
deriving DecidableEq, Repr

/-- The `Camera` of tinygl_interface.h. -/
structure Camera (R : Type) where
  position : Vec3 R
  forward : Vec3 R
  up : Vec3 R
  view_matrix : Mat4 R
deriving DecidableEq

/-- The `FrameTiming` struct of tinygl_interface.c. -/
structure FrameTiming (R : Type) where
  frameNumber : Nat
  lastTime : R
  fps : R
  renderTime : R
deriving DecidableEq

/-- The canvas object behind the `lv_obj_t *canvas` handle: its buffer
(`none` before `lv_canvas_set_buffer`), its size and how often it was
invalidated. -/
structure Canvas where
  buf : Option Nat
  w : Int
  h : Int
  invalidated : Nat
deriving DecidableEq, Repr

/-- The static variables of tinygl_interface.c and lvgl_interface.c, the
rasterizer context, the heap and the log of `ZB_open` calls. -/
structure State (R : Type) where
  frame_buffer : Option ZBuffer
  fb_width : Int
  fb_height : Int
  fb_render_bits : Int
  camera : Camera R
  frameTiming : FrameTiming R
  lvgl_buffer1 : Option Nat
  lvgl_buffer2 : Option Nat
  canvas : Option Canvas
  display_width : Int
  display_height : Int
  gl : GLContext R
  heap : Heap
  zb_opens : List (Int × Int × ZBMode × Nat)

/-- The state at program start: every static variable zero or NULL, an
empty heap and no call made. -/
def State.initial {R : Type} [Zero R] [One R] : State R :=
  { frame_buffer := none
    fb_width := 0
    fb_height := 0
    fb_render_bits := 0
    camera :=
      { position := ⟨0, 0, 0⟩, forward := ⟨0, 0, 0⟩, up := ⟨0, 0, 0⟩
        view_matrix := ⟨List.replicate 16 0⟩ }
    frameTiming := { frameNumber := 0, lastTime := 0, fps := 0, renderTime := 0 }
    lvgl_buffer1 := none
    lvgl_buffer2 := none
    canvas := none
    display_width := 0
    display_height := 0
    gl :=
      { matrix_mode := .GL_MODELVIEW
        modelview := { top := identity_m, saved := [] }
        projection := { top := identity_m, saved := [] }
        texture := { top := identity_m, saved := [] }
        loads := []
        texts := [] }
    heap := { mem := fun _ => none, allocs := [], frees := [] }
    zb_opens := [] }

/-! ## tinygl_interface.c -/

/-- The C function `render_fps_counter`: the overlay pass. `glTextSize`
has no effect on the modelled context; the text drawn is logged as the
two numbers formatted into it. -/
def render_fps_counter {R : Type} [Zero R] [One R] (s : State R) : State R :=
  /- Push current matrices to save state -/
  let c := glPushMatrix s.gl
  let c := glMatrixMode .GL_PROJECTION c
  let c := glPushMatrix c
  let c := glLoadIdentity c
  let c := glMatrixMode .GL_MODELVIEW c
  let c := glPushMatrix c
  let c := glLoadIdentity c
  /- Render the text -/
  let c := glDrawText s.frameTiming.fps s.frameTiming.renderTime c
  /- Restore matrices -/
  let c := glPopMatrix c
  let c := glMatrixMode .GL_PROJECTION c
  let c := glPopMatrix c
  let c := glMatrixMode .GL_MODELVIEW c
  { s with gl := c }

/-- The C function `tinygl_update_camera_view`. -/
def tinygl_update_camera_view {R : Type} [Add R] (E : Extern R) (s : State R) : State R :=
  let view_matrix :=
    E.lookAt s.camera.position (add_vec3 s.camera.position s.camera.forward) s.camera.up
  { s with camera := { s.camera with view_matrix := view_matrix }
           gl := glLoadMatrixf view_matrix s.gl }

/-- The C function `tinygl_init`. `frame_buffer_mem` is the answer of
`aligned_alloc` (with `junk` the indeterminate contents of the block, one
cell per pixel), `zb_ok` says whether `ZB_open` succeeds and `now` is the
clock reading. `glClearColor`, `glViewport` and `glEnable` have no effect
on the modelled context. The result is the new state and the status. -/
def tinygl_init {R : Type} [LinearOrderedField R] (E : Extern R)
    (width height render_bits : Int) (frame_buffer_mem : Option Nat) (junk : Nat → Nat)
    (zb_ok : Bool) (now : R) (s : State R) : State R × Int :=
  let s := { s with fb_width := width, fb_height := height, fb_render_bits := render_bits }
  /- Select framebuffer mode based on render bits -/
  let mode : Option ZBMode :=
    if render_bits = 32 then some .ZB_MODE_RGBA
    else if render_bits = 16 then some .ZB_MODE_5R6G5B
    else none
  match mode with
  | none => (s, -1)
  | some mode =>
    /- Allocate framebuffer memory -/
    let size := width * height * (if render_bits = 32 then 4 else 2)
    let s := { s with heap := s.heap.allocate size frame_buffer_mem
                                  ((List.range (width * height).toNat).map junk) }
    match frame_buffer_mem with
    | none => (s, -1)
    | some mem =>
      /- Open ZBuffer -/
      let s := { s with zb_opens := s.zb_opens ++ [(width, height, mode, mem)] }
      if zb_ok = false then
        ({ s with frame_buffer := none, heap := s.heap.free mem }, -1)
      else
        let s := { s with frame_buffer :=
                            some { xsize := width, ysize := height, mode := mode, pbuf := mem } }
        /- Initialize TinyGL -/
        let c := glInit s.gl
        let c := glMatrixMode .GL_PROJECTION c
        let c := glLoadIdentity c
        let c := c.setCurrent
          { c.current with
            top := E.gluPerspective 45 ((width : R) / (height : R)) 1 1000 c.current.top }
        let c := glMatrixMode .GL_MODELVIEW c
        let c := glLoadIdentity c
        /- Initialize default camera -/
        let s := { s with gl := c
                          camera := { s.camera with position := ⟨0, 0, 3⟩
                                                    forward := ⟨0, 0, -1⟩
                                                    up := ⟨0, 1, 0⟩ } }
        let s := tinygl_update_camera_view E s
        /- Initialize frame timing -/
        ({ s with frameTiming := { frameNumber := 0, lastTime := now, fps := 0, renderTime := 0 } },
         0)

/-- The C function `tinygl_set_camera`. -/
def tinygl_set_camera {R : Type} [Add R] [Sub R] (E : Extern R) (eye location up : Vec3 R)
    (s : State R) : State R :=
  let s := { s with camera := { s.camera with position := eye } }
  let s := { s with camera := { s.camera with
                                forward := E.normalize_vec3 (subv3 location eye) } }
  let s := { s with camera := { s.camera with up := E.normalize_vec3 up } }
  tinygl_update_camera_view E s

/-- The C function `tinygl_move_camera_forward`. -/
def tinygl_move_camera_forward {R : Type} [Add R] [Mul R] (E : Extern R) (distance : R)
    (s : State R) : State R :=
  let movement : Vec3 R :=
    { x := s.camera.forward.x * distance
      y := s.camera.forward.y * distance
      z := s.camera.forward.z * distance }
  let s := { s with camera := { s.camera with position := add_vec3 s.camera.position movement } }
  tinygl_update_camera_view E s

/-- The C function `tinygl_move_camera_backward`. -/
def tinygl_move_camera_backward {R : Type} [Add R] [Mul R] [Neg R] (E : Extern R)
    (distance : R) (s : State R) : State R :=
  tinygl_move_camera_forward E (-distance) s

/-- The C function `tinygl_move_camera_left`. -/
def tinygl_move_camera_left {R : Type} [Add R] [Sub R] [Mul R] [Neg R] (E : Extern R)
    (distance : R) (s : State R) : State R :=
  let right := E.normalize_vec3 (cross_vec3 s.camera.forward s.camera.up)
  let movement : Vec3 R :=
    { x := right.x * -distance
      y := right.y * -distance
      z := right.z * -distance }
  let s := { s with camera := { s.camera with position := add_vec3 s.camera.position movement } }
  tinygl_update_camera_view E s

/-- The C function `tinygl_move_camera_right`. -/
def tinygl_move_camera_right {R : Type} [Add R] [Sub R] [Mul R] (E : Extern R)
    (distance : R) (s : State R) : State R :=
  let right := E.normalize_vec3 (cross_vec3 s.camera.forward s.camera.up)
  let movement : Vec3 R :=
    { x := right.x * distance
      y := right.y * distance
      z := right.z * distance }
  let s := { s with camera := { s.camera with position := add_vec3 s.camera.position movement } }
  tinygl_update_camera_view E s

/-- The vector `(M.m[0], M.m[1], M.m[2])` that `tinygl_rotate_camera`
builds from a rotation matrix. -/
def first_three {R : Type} [Zero R] (M : Mat4 R) : Vec3 R :=
  { x := M.m.getD 0 0, y := M.m.getD 1 0, z := M.m.getD 2 0 }

/-- The C function `tinygl_rotate_camera`. -/
def tinygl_rotate_camera {R : Type} [Zero R] [Add R] [Sub R] [Mul R] (E : Extern R)
    (yaw pitch : R) (s : State R) : State R :=
  let rot_yaw := E.rotate { x := yaw, y := 0, z := 0 }
  let rot_pitch := E.rotate { x := 0, y := pitch, z := 0 }
  /- Apply yaw rotation to forward and up vectors -/
  let new_forward := E.normalize_vec3 (E.multvec3 s.camera.forward (first_three rot_yaw))
  let new_up :=
    E.normalize_vec3 (cross_vec3 (E.right_vec3 new_forward s.camera.up) new_forward)
  let s := { s with camera := { s.camera with forward := new_forward, up := new_up } }
  /- Apply pitch rotation to forward and up vectors -/
  let new_forward := E.normalize_vec3 (E.multvec3 s.camera.forward (first_three rot_pitch))
  let new_up :=
    E.normalize_vec3 (cross_vec3 (E.right_vec3 new_forward s.camera.up) new_forward)
  let s := { s with camera := { s.camera with forward := new_forward, up := new_up } }
  tinygl_update_camera_view E s

/-- The C function `tinygl_get_framebuffer`; `ZB_get_buffer` returns the
address of the pixel buffer of the handle. -/
def tinygl_get_framebuffer {R : Type} (s : State R) : Option Nat :=
  match s.frame_buffer with
  | none => none
  | some zb => some zb.pbuf

/-- The C function `tinygl_render`, with the two clock readings
`startTime` and `endTime` as arguments. `glClear`, the triangle and
`glFlush` have no effect on the modelled context. -/
def tinygl_render {R : Type} [LinearOrderedField R] (startTime endTime : R) (s : State R) :
    State R :=
  match s.frame_buffer with
  | none => s
  | some _ =>
    let c := glLoadIdentity s.gl
    /- Load the view matrix -/
    let c := glLoadMatrixf s.camera.view_matrix c
    let s := { s with gl := c }
    /- Calculate render time for this frame -/
    let s := { s with frameTiming := { s.frameTiming with renderTime := endTime - startTime } }
    /- Update frame count -/
    let s := { s with frameTiming := { s.frameTiming with
                                       frameNumber := (s.frameTiming.frameNumber + 1) % 2 ^ 32 } }
    /- Calculate elapsed time since last FPS calculation -/
    let currentTime := endTime
    let deltaTime := currentTime - s.frameTiming.lastTime
    /- Update FPS every 500 ms -/
    let s :=
      if deltaTime ≥ 500 then
        { s with frameTiming := { s.frameTiming with
                                  fps := (s.frameTiming.frameNumber : R) / (deltaTime / 500)
                                  frameNumber := 0
                                  lastTime := currentTime } }
      else s
    render_fps_counter s

/-! ## lvgl_interface.c -/

/-- The C function `lvgl_init`. `buffer1` and `buffer2` are the answers of
the two `malloc` calls (with `junk` the indeterminate contents of a new
block, one cell per `lv_color_t`), `canvas_ok` says whether
`lv_canvas_create` returns a handle. The display-driver registration acts
on the GUI library only and is not modelled; `lv_canvas_fill_bg` writes
black, `LV_COLOR_MAKE(0, 0, 0)`, to every cell of the canvas buffer. The
result is the new state and the status. -/
def lvgl_init {R : Type} (E : Extern R) (width height : Int) (buffer1 buffer2 : Option Nat)
    (junk : Nat → Nat) (canvas_ok : Bool) (s : State R) : State R × Int :=
  let s := { s with display_width := width, display_height := height }
  let size : Int := (E.sizeof_lv_color_t : Int) * width * height
  let cells := (List.range (width * height).toNat).map junk
  /- Allocate LVGL buffers -/
  let s := { s with lvgl_buffer1 := buffer1, heap := s.heap.allocate size buffer1 cells }
  match buffer1 with
  | none => (s, -1)
  | some b1 =>
    let s := { s with lvgl_buffer2 := buffer2, heap := s.heap.allocate size buffer2 cells }
    match buffer2 with
    | none => ({ s with heap := s.heap.free b1 }, -1)
    | some b2 =>
      /- Create an LVGL canvas to display TinyGL's framebuffer -/
      if canvas_ok = false then
        ({ s with canvas := none, heap := (s.heap.free b1).free b2 }, -1)
      else
        /- Set the canvas buffer -/
        let s := { s with canvas :=
                            some { buf := some b1, w := width, h := height, invalidated := 0 } }
        /- Fill the canvas with a default color -/
        let s := { s with heap := s.heap.fill b1 (E.LV_COLOR_MAKE 0 0 0) }
        (s, 0)

/-- The `uint8_t r` of the conversion loop of `lvgl_update_canvas`. -/
def channel_r (pixel : Nat) : Nat :=
  (((pixel >>> 11) &&& 0x1F) <<< 3) % 256

/-- The `uint8_t g` of the conversion loop of `lvgl_update_canvas`. -/
def channel_g (pixel : Nat) : Nat :=
  (((pixel >>> 5) &&& 0x3F) <<< 2) % 256

/-- The `uint8_t b` of the conversion loop of `lvgl_update_canvas`. -/
def channel_b (pixel : Nat) : Nat :=
  ((pixel &&& 0x1F) <<< 3) % 256

/-- The value the conversion loop stores for one 16-bit pixel. -/
def convert_pixel {R : Type} (E : Extern R) (pixel : Nat) : Nat :=
  E.LV_COLOR_MAKE (channel_r pixel) (channel_g pixel) (channel_b pixel)

/-- One turn of the conversion loop: `pixel = fb_16[i]`, then
`cb[i].full = LV_COLOR_MAKE(r, g, b).full`. -/
def convert_step {R : Type} (E : Extern R) (fb_16 cb i : Nat) (h : Heap) : Option Heap :=
  match h.read fb_16 i with
  | none => none
  | some word =>
    let pixel := word % 65536
    h.write cb i (convert_pixel E pixel)

/-- The loop `for (i = ...; i < total_pixels; i++)` of the 16-bit branch
with `n` turns still to run; `none` when an access leaves its block. -/
def convert_loop {R : Type} (E : Extern R) (fb_16 cb : Nat) : Nat → Nat → Heap → Option Heap
  | 0, _, h => some h
  | n + 1, i, h =>
    match convert_step E fb_16 cb i h with
    | none => none
    | some h1 => convert_loop E fb_16 cb n (i + 1) h1

/-- One cell of the `memcpy` of the 32-bit branch (an `lv_color_t` as
wide as a native pixel). -/
def copy_step (src dst i : Nat) (h : Heap) : Option Heap :=
  match h.read src i with
  | none => none
  | some word => h.write dst i word

/-- The `memcpy` of the 32-bit branch, cell by cell, with `n` cells still
to copy; `none` when an access leaves its block. -/
def copy_loop (src dst : Nat) : Nat → Nat → Heap → Option Heap
  | 0, _, h => some h
  | n + 1, i, h =>
    match copy_step src dst i h with
    | none => none
    | some h1 => copy_loop src dst n (i + 1) h1

/-- The C function `lvgl_update_canvas`. The result is `none` when the
call has no defined behaviour: the NULL canvas handle passed to
`lv_canvas_get_buffer`, or an access outside a live block. -/
def lvgl_update_canvas {R : Type} (E : Extern R) (s : State R) : Option (State R) :=
  /- Get TinyGL's framebuffer -/
  match tinygl_get_framebuffer s with
  | none => some s
  | some fb_pixels =>
    /- Get the LVGL canvas buffer -/
    match s.canvas with
    | none => none
    | some cv =>
      match cv.buf with
      | none => some s
      | some canvas_buf =>
        let total_pixels := s.display_width * s.display_height
        let heap : Option Heap :=
          if E.TGL_FEATURE_RENDER_BITS = 32 then
            copy_loop fb_pixels canvas_buf total_pixels.toNat 0 s.heap
          else if E.TGL_FEATURE_RENDER_BITS = 16 then
            convert_loop E fb_pixels canvas_buf total_pixels.toNat 0 s.heap
          else some s.heap
        match heap with
        | none => none
        | some heap =>
          /- Invalidate the canvas to trigger a redraw -/
          some { s with heap := heap
                        canvas := some { cv with invalidated := cv.invalidated + 1 } }

/-- The C function `lvgl_cleanup`. `lv_obj_del` and `lv_deinit` act on the
GUI library only. -/
def lvgl_cleanup {R : Type} (s : State R) : State R :=
  /- Free LVGL canvas buffer -/
  let s :=
    match s.canvas with
    | none => s
    | some cv =>
      let s :=
        match cv.buf with
        | none => s
        | some canvas_buf => { s with heap := s.heap.free canvas_buf }
      { s with canvas := none }
  /- Free LVGL buffers -/
  let s :=
    match s.lvgl_buffer1 with
    | none => s
    | some b1 => { s with heap := s.heap.free b1, lvgl_buffer1 := none }
  let s :=
    match s.lvgl_buffer2 with
    | none => s
    | some b2 => { s with heap := s.heap.free b2, lvgl_buffer2 := none }
  s

/-! ## States the properties speak about -/

/-- The renderer is open in 16-bit format at `w` by `h` with its native
pixels `px` in block `fb`, and the canvas was initialised with the same
width and height, its cells `cells` in block `cb`. -/
structure Bridged16 {R : Type} (E : Extern R) (s : State R) (w h fb cb : Nat)
    (px cells : List Nat) : Prop where
  compiled_bits : E.TGL_FEATURE_RENDER_BITS = 16
  render_bits : s.fb_render_bits = 16
  fb_width : s.fb_width = w
  fb_height : s.fb_height = h
  frame_buffer :
    s.frame_buffer = some { xsize := w, ysize := h, mode := .ZB_MODE_5R6G5B, pbuf := fb }
  native : s.heap.mem fb = some px
  native_length : px.length = w * h
  display_width : s.display_width = w
  display_height : s.display_height = h
  canvas : ∃ k, s.canvas = some { buf := some cb, w := w, h := h, invalidated := k }
  canvas_cells : s.heap.mem cb = some cells
  canvas_length : cells.length = w * h
  distinct : fb ≠ cb

/-! ## Concrete inputs -/

/-- An instance of the parameters over the rationals, for running the
model on concrete inputs: a 16-bit build with 32-bit colour cells packed
as `r << 16 | g << 8 | b`; the matrix helpers only record their
arguments and the vector helpers are the simplest maps of their type. -/
def sampleExtern : Extern ℚ :=
  { lookAt := fun eye center up =>
      ⟨[eye.x, eye.y, eye.z, center.x, center.y, center.z, up.x, up.y, up.z]⟩
    rotate := fun v => ⟨[v.x, v.y, v.z]⟩
    normalize_vec3 := fun v => v
    multvec3 := fun a b => ⟨a.x * b.x, a.y * b.y, a.z * b.z⟩
    right_vec3 := fun f u => cross_vec3 f u
    gluPerspective := fun fovy aspect zNear zFar _ => ⟨[fovy, aspect, zNear, zFar]⟩
    LV_COLOR_MAKE := fun r g b => r * 65536 + g * 256 + b
    TGL_FEATURE_RENDER_BITS := 16
    sizeof_lv_color_t := 4 }

/-- The state after `tinygl_init(2, 2, 16)` and `lvgl_init(2, 2)` both
succeeded from program start, the native buffer at address 100 holding
the pixels 0xF800, 0xF801, 0xF802, 0xF803 and the two GUI buffers at
addresses 200 and 300. -/
def sampleState : State ℚ :=
  (lvgl_init sampleExtern 2 2 (some 200) (some 300) (fun _ => 0) true
    (tinygl_init sampleExtern 2 2 16 (some 100) (fun i => 0xF800 + i) true 0
      State.initial).1).1

/-- The session `sampleState` with 29 frames counted since the window
start at 1000 ms. -/
def sampleTimed : State ℚ :=
  { sampleState with
    frameTiming := { frameNumber := 29, lastTime := 1000, fps := 0, renderTime := 0 } }

/-- The step from `s0` to `s1` left the view matrix equal to the look-at
matrix of the pose of `s1` and handed exactly that matrix to
`glLoadMatrixf`, once, making it the current matrix of the selected
stack. -/
def ViewRecomputed {R : Type} [Add R] (E : Extern R) (s0 s1 : State R) : Prop :=
  s1.camera.view_matrix =
      E.lookAt s1.camera.position (add_vec3 s1.camera.position s1.camera.forward)
        s1.camera.up ∧
    s1.gl.loads = s0.gl.loads ++ [s1.camera.view_matrix] ∧
    s1.gl.current.top = s1.camera.view_matrix

/-- The session `sampleState` with the frame counter at its largest
`unsigned int` value and the window start at 0 ms, the value
`get_current_time_ms` returns whenever `gettimeofday` fails. -/
def sampleWrapped : State ℚ :=
  { sampleState with
    frameTiming := { frameNumber := 4294967295, lastTime := 0, fps := 0, renderTime := 0 } }

/-- The state after the two calls of `main`, `tinygl_init(240, 320, 16)`
and `lvgl_init(320, 320)`, both succeeded from program start, the native
buffer at address 100 and the two GUI buffers at addresses 200 and 300. -/
def mainState : State ℚ :=
  (lvgl_init sampleExtern 320 320 (some 200) (some 300) (fun _ => 0) true
    (tinygl_init sampleExtern 240 320 16 (some 100) (fun _ => 0) true 0 State.initial).1).1

/-! ## Orthonormality of the camera basis -/

/-- Modelled from the spec: `dot` of the vector primitives of 3dMath.h,
which is not under src/; the spec's "standard definition", the sum of the
products of the components. -/
def dot_vec3 {R : Type} [Add R] [Mul R] (a b : Vec3 R) : R :=
  a.x * b.x + a.y * b.y + a.z * b.z

/-- The number `n` is the magnitude |v| of `v`: it is not negative and its
square is v.v. -/
def IsLength {R : Type} [LinearOrderedField R] (n : R) (v : Vec3 R) : Prop :=
  0 ≤ n ∧ n * n = dot_vec3 v v

/-- Modelled from the spec: `normalize_vec3` of 3dMath.h, which is not
under src/; the spec's "returns v / |v|", for every `v` whose magnitude is
not zero (the spec leaves the result at magnitude zero open). -/
def SpecNormalize {R : Type} [LinearOrderedField R] (normalize : Vec3 R → Vec3 R) : Prop :=
  ∀ (v : Vec3 R) (n : R), IsLength n v → n ≠ 0 →
    normalize v = { x := v.x / n, y := v.y / n, z := v.z / n }

/-- A non-degenerate input of `normalize_vec3`: a vector with a magnitude
that is not zero (over the reals: any vector but zero). -/
def NonDegenerate {R : Type} [LinearOrderedField R] (v : Vec3 R) : Prop :=
  ∃ n, IsLength n v ∧ n ≠ 0

/-- The vector `tinygl_rotate_camera` hands to `normalize_vec3` for the
forward vector of its pitch step. -/
def pitch_forward_arg {R : Type} [Zero R] [Add R] [Sub R] [Mul R] (E : Extern R)
    (yaw pitch : R) (s : State R) : Vec3 R :=
  let rot_yaw := E.rotate { x := yaw, y := 0, z := 0 }
  let rot_pitch := E.rotate { x := 0, y := pitch, z := 0 }
  let new_forward := E.normalize_vec3 (E.multvec3 s.camera.forward (first_three rot_yaw))
  E.multvec3 new_forward (first_three rot_pitch)

/-- The vector `tinygl_rotate_camera` hands to `normalize_vec3` for the up
vector of its pitch step. -/
def pitch_up_arg {R : Type} [Zero R] [Add R] [Sub R] [Mul R] (E : Extern R)
    (yaw pitch : R) (s : State R) : Vec3 R :=
  let rot_yaw := E.rotate { x := yaw, y := 0, z := 0 }
  let new_forward := E.normalize_vec3 (E.multvec3 s.camera.forward (first_three rot_yaw))
  let new_up :=
    E.normalize_vec3 (cross_vec3 (E.right_vec3 new_forward s.camera.up) new_forward)
  let new_forward := E.normalize_vec3 (pitch_forward_arg E yaw pitch s)
  cross_vec3 (E.right_vec3 new_forward new_up) new_forward

/-- The camera's forward and up are unit vectors and orthogonal. -/
def Orthonormal {R : Type} [LinearOrderedField R] (c : Camera R) : Prop :=
  dot_vec3 c.forward c.forward = 1 ∧ dot_vec3 c.up c.up = 1 ∧ dot_vec3 c.forward c.up = 0

/-- The magnitudes |forward| and |up| are within 1e-5 of 1.0 and
forward.up is within 1e-4 of 0. -/
def WithinTolerance {R : Type} [LinearOrderedField R] (c : Camera R) : Prop :=
  (∀ n, IsLength n c.forward → |n - 1| ≤ 1 / 100000) ∧
    (∀ n, IsLength n c.up → |n - 1| ≤ 1 / 100000) ∧
    |dot_vec3 c.forward c.up| ≤ 1 / 10000

/-- A sequence of `tinygl_rotate_camera(yaw, pitch)` calls, first call
first. -/
def rotate_sequence {R : Type} [Zero R] [Add R] [Sub R] [Mul R] (E : Extern R) :
    List (R × R) → State R → State R
  | [], s => s
  | (yaw, pitch) :: rest, s => rotate_sequence E rest (tinygl_rotate_camera E yaw pitch s)

/-- Every call of the sequence hands non-degenerate vectors to the two
`normalize_vec3` calls that produce its resulting forward and up. -/
def SequenceNonDegenerate {R : Type} [LinearOrderedField R] (E : Extern R) :
    List (R × R) → State R → Prop
  | [], _ => True
  | (yaw, pitch) :: rest, s =>
    NonDegenerate (pitch_forward_arg E yaw pitch s) ∧
      NonDegenerate (pitch_up_arg E yaw pitch s) ∧
      SequenceNonDegenerate E rest (tinygl_rotate_camera E yaw pitch s)

/-- The parameters `sampleExtern` with a `normalize_vec3` that divides by
the rational square root of v.v and a `rotate` whose first three entries
are the sum of the first two angles, twice, and its negative. -/
def sampleRotate : Extern ℚ :=
  { sampleExtern with
    rotate := fun v => ⟨[v.x + v.y, v.x + v.y, -(v.x + v.y)]⟩
    normalize_vec3 := fun v =>
      { x := v.x / Rat.sqrt (dot_vec3 v v)
        y := v.y / Rat.sqrt (dot_vec3 v v)
        z := v.z / Rat.sqrt (dot_vec3 v v) } }

/-! ## Pixel conversion -/

theorem channel_r_eq (p : Nat) : channel_r p = ((p >>> 11) &&& 0x1F) <<< 3 := by
  have h1 : (p >>> 11) &&& 0x1F ≤ 0x1F := Nat.and_le_right
  simp only [channel_r, Nat.shiftLeft_eq]
  omega

theorem channel_g_eq (p : Nat) : channel_g p = ((p >>> 5) &&& 0x3F) <<< 2 := by
  have h1 : (p >>> 5) &&& 0x3F ≤ 0x3F := Nat.and_le_right
  simp only [channel_g, Nat.shiftLeft_eq]
  omega

theorem channel_b_eq (p : Nat) : channel_b p = (p &&& 0x1F) <<< 3 := by
  have h1 : p &&& 0x1F ≤ 0x1F := Nat.and_le_right
  simp only [channel_b, Nat.shiftLeft_eq]
  omega

/-- C1: for every pixel `p` (so for every 16-bit 5:6:5 pixel,
0 <= p <= 65535) the `uint8_t` channel values of the conversion loop are
r = ((p >> 11) & 0x1F) << 3, g = ((p >> 5) & 0x3F) << 2 and
b = (p & 0x1F) << 3, each at most 255, so the 8-bit storage loses nothing;
and p = 0xF800 gives r = 0xF8, g = 0x00, b = 0x00. -/
theorem channels_fit_uint8 (p : Nat) :
    channel_r p = ((p >>> 11) &&& 0x1F) <<< 3 ∧
    channel_g p = ((p >>> 5) &&& 0x3F) <<< 2 ∧
    channel_b p = (p &&& 0x1F) <<< 3 ∧
    ((p >>> 11) &&& 0x1F) <<< 3 ≤ 255 ∧
    ((p >>> 5) &&& 0x3F) <<< 2 ≤ 255 ∧
    (p &&& 0x1F) <<< 3 ≤ 255 ∧
    channel_r 0xF800 = 0xF8 ∧ channel_g 0xF800 = 0x00 ∧ channel_b 0xF800 = 0x00 := by
  have h1 : (p >>> 11) &&& 0x1F ≤ 0x1F := Nat.and_le_right
  have h2 : (p >>> 5) &&& 0x3F ≤ 0x3F := Nat.and_le_right
  have h3 : p &&& 0x1F ≤ 0x1F := Nat.and_le_right
  refine ⟨channel_r_eq p, channel_g_eq p, channel_b_eq p, ?_, ?_, ?_, by decide, by decide,
    by decide⟩
  · simp only [Nat.shiftLeft_eq]; omega
  · simp only [Nat.shiftLeft_eq]; omega
  · simp only [Nat.shiftLeft_eq]; omega

/-! ## The conversion loop -/

theorem convert_loop_spec {R : Type} (E : Extern R) (fb cb : Nat) (hne : fb ≠ cb)
    (px : List Nat) :
    ∀ (n i : Nat) (h : Heap) (cells : List Nat),
      h.mem fb = some px → h.mem cb = some cells →
      i + n ≤ px.length → i + n ≤ cells.length →
      ∃ h1 cells1, convert_loop E fb cb n i h = some h1 ∧
        h1.mem cb = some cells1 ∧ cells1.length = cells.length ∧
        (∀ j, cells1[j]? =
          if i ≤ j ∧ j < i + n then (px[j]?).map (fun w => convert_pixel E (w % 65536))
          else cells[j]?) ∧
        (∀ q, q ≠ cb → h1.mem q = h.mem q) ∧
        h1.frees = h.frees ∧ h1.allocs = h.allocs := by
  intro n
  induction n with
  | zero =>
    intro i h cells _ hcb _ _
    refine ⟨h, cells, rfl, hcb, rfl, ?_, fun _ _ => rfl, rfl, rfl⟩
    intro j
    rw [if_neg (by omega)]
  | succ n ih =>
    intro i h cells hfb hcb hpx hcells
    have hi : i < px.length := by omega
    have hic : i < cells.length := by omega
    have hread : h.read fb i = some px[i] := by
      simp [Heap.read, hfb, List.getElem?_eq_getElem hi]
    have hstep : convert_step E fb cb i h =
        some { h with mem := fun q => if q = cb then
                  some (cells.set i (convert_pixel E (px[i] % 65536))) else h.mem q } := by
      simp [convert_step, hread, Heap.write, hcb, hic]
    obtain ⟨h1, cells1, hrun, hm, hlen, hcell, hother, hfr, hal⟩ :=
      ih (i + 1)
        { h with mem := fun q => if q = cb then
                  some (cells.set i (convert_pixel E (px[i] % 65536))) else h.mem q }
        (cells.set i (convert_pixel E (px[i] % 65536)))
        (by simpa [hne] using hfb) (by simp) (by omega) (by simp; omega)
    refine ⟨h1, cells1, ?_, hm, by simpa using hlen, ?_, ?_, hfr, hal⟩
    · simp [convert_loop, hstep, hrun]
    · intro j
      rw [hcell j]
      by_cases hj : j = i
      · subst hj
        have h1 : ¬ (j + 1 ≤ j ∧ j < j + 1 + n) := by omega
        have h2 : (j ≤ j ∧ j < j + (n + 1)) := by omega
        simp [h1, h2, List.getElem?_eq_getElem hi, hic]
      · by_cases hr : i + 1 ≤ j ∧ j < i + 1 + n
        · have h2 : (i ≤ j ∧ j < i + (n + 1)) := by omega
          simp [hr, h2]
        · have h2 : ¬ (i ≤ j ∧ j < i + (n + 1)) := by omega
          simp only [hr, h2, if_false]
          rw [List.getElem?_set_ne (Ne.symm hj)]
    · intro q hq
      rw [hother q hq]
      exact if_neg hq

/-! ## Canvas update -/

theorem bridged16_after_init {R : Type} [LinearOrderedField R] (E : Extern R)
    (hbits : E.TGL_FEATURE_RENDER_BITS = 16) (w h fb cb b2 : Nat)
    (h1 : fb ≠ cb) (h2 : fb ≠ b2) (junk junk1 : Nat → Nat) (now : R) (s : State R) :
    Bridged16 E
      (lvgl_init E w h (some cb) (some b2) junk1 true
        (tinygl_init E w h 16 (some fb) junk true now s).1).1
      w h fb cb ((List.range (w * h)).map junk)
      (List.replicate (w * h) (E.LV_COLOR_MAKE 0 0 0)) := by
  have hwh : ((w : Int) * (h : Int)).toNat = w * h := by
    rw [← Nat.cast_mul, Int.toNat_natCast]
  constructor <;>
    simp [lvgl_init, tinygl_init, tinygl_update_camera_view, Heap.allocate, Heap.fill, hbits,
      hwh, h1, h2, Ne.symm h1, Ne.symm h2]

/-- C2: when the renderer is open in 16-bit format and the canvas was
initialised with the renderer's width and height, `lvgl_update_canvas`
returns, and afterwards the canvas buffer has exactly width*height cells,
cell i holding LV_COLOR_MAKE(r, g, b) for the r, g, b of the shift formula
applied to native pixel i; no other block of memory is written. -/
theorem update_canvas_converts_every_pixel {R : Type} (E : Extern R) (s : State R)
    (w h fb cb : Nat) (px cells : List Nat) (hs : Bridged16 E s w h fb cb px cells) :
    ∃ s1 cells1, lvgl_update_canvas E s = some s1 ∧
      s1.heap.mem cb = some cells1 ∧ cells1.length = w * h ∧
      (∀ i, i < w * h → ∃ pixel, (px[i]?).map (fun word => word % 65536) = some pixel ∧
        cells1[i]? = some (E.LV_COLOR_MAKE (((pixel >>> 11) &&& 0x1F) <<< 3)
          (((pixel >>> 5) &&& 0x3F) <<< 2) ((pixel &&& 0x1F) <<< 3))) ∧
      (∀ q, q ≠ cb → s1.heap.mem q = s.heap.mem q) := by
  obtain ⟨k, hk⟩ := hs.canvas
  have hwh : ((w : Int) * (h : Int)).toNat = w * h := by
    rw [← Nat.cast_mul, Int.toNat_natCast]
  obtain ⟨h1, cells1, hrun, hm, hlen, hcell, hother, -, -⟩ :=
    convert_loop_spec E fb cb hs.distinct px (w * h) 0 s.heap cells hs.native hs.canvas_cells
      (by simp [hs.native_length]) (by simp [hs.canvas_length])
  refine ⟨{ s with heap := h1,
                   canvas := some { buf := some cb, w := w, h := h, invalidated := k + 1 } },
    cells1, ?_, hm, by rw [hlen, hs.canvas_length], ?_, hother⟩
  · simp [lvgl_update_canvas, tinygl_get_framebuffer, hs.frame_buffer, hk, hs.compiled_bits,
      hs.display_width, hs.display_height, hwh, hrun]
  · intro i hi
    have hip : i < px.length := by rw [hs.native_length]; exact hi
    refine ⟨px[i] % 65536, by simp [List.getElem?_eq_getElem hip], ?_⟩
    rw [hcell i, if_pos ⟨Nat.zero_le i, by omega⟩, List.getElem?_eq_getElem hip]
    simp [convert_pixel, channel_r_eq, channel_g_eq, channel_b_eq]

/-- Witness of C2 on the 2x2 session `sampleState`. -/
theorem update_canvas_converts_every_pixel_witness :
    Bridged16 sampleExtern sampleState 2 2 100 200 [0xF800, 0xF801, 0xF802, 0xF803]
        [0, 0, 0, 0] ∧
      ∃ s1 cells1, lvgl_update_canvas sampleExtern sampleState = some s1 ∧
        s1.heap.mem 200 = some cells1 ∧ cells1.length = 2 * 2 ∧
        (∀ i, i < 2 * 2 → ∃ pixel,
          (([0xF800, 0xF801, 0xF802, 0xF803] : List Nat)[i]?).map (fun word => word % 65536)
            = some pixel ∧
          cells1[i]? = some (sampleExtern.LV_COLOR_MAKE (((pixel >>> 11) &&& 0x1F) <<< 3)
            (((pixel >>> 5) &&& 0x3F) <<< 2) ((pixel &&& 0x1F) <<< 3))) ∧
        (∀ q, q ≠ 200 → s1.heap.mem q = sampleState.heap.mem q) :=
  have hs : Bridged16 sampleExtern sampleState 2 2 100 200 [0xF800, 0xF801, 0xF802, 0xF803]
      [0, 0, 0, 0] :=
    bridged16_after_init sampleExtern rfl 2 2 100 200 300 (by decide) (by decide)
      (fun i => 0xF800 + i) (fun _ => 0) 0 State.initial
  ⟨hs, update_canvas_converts_every_pixel sampleExtern sampleState 2 2 100 200 _ _ hs⟩

/-! ## Frame timing -/

theorem render_fps_counter_frameTiming {R : Type} [Zero R] [One R] (s : State R) :
    (render_fps_counter s).frameTiming = s.frameTiming := rfl

theorem tinygl_render_window {R : Type} [LinearOrderedField R] (startTime endTime : R)
    (s : State R) (hopen : s.frame_buffer ≠ none)
    (hwin : 500 ≤ endTime - s.frameTiming.lastTime) :
    (tinygl_render startTime endTime s).frameTiming =
      { frameNumber := 0, lastTime := endTime,
        fps := (((s.frameTiming.frameNumber + 1) % 2 ^ 32 : Nat) : R) /
          ((endTime - s.frameTiming.lastTime) / 500),
        renderTime := endTime - startTime } := by
  cases hfb : s.frame_buffer with
  | none => exact absurd hfb hopen
  | some zb =>
    have hge : endTime - s.frameTiming.lastTime ≥ 500 := hwin
    simp only [tinygl_render, hfb, hge, if_true, render_fps_counter_frameTiming]

theorem sampleTimed_open : sampleTimed.frame_buffer ≠ none := by decide

theorem sampleTimed_window : (500 : ℚ) ≤ 1500 - sampleTimed.frameTiming.lastTime := by
  show (500 : ℚ) ≤ 1500 - 1000
  norm_num

/-- C3: in a `tinygl_render` step on an open session whose elapsed time
endTime - lastTime is at least 500 ms, fps becomes
framesAccumulated / (elapsedMs / 500) with framesAccumulated the frame
counter after this frame's increment, frameNumber becomes 0 and lastTime
becomes endTime; 30 frames over exactly 500 ms give fps = 30. -/
theorem fps_recomputed_after_window {R : Type} [LinearOrderedField R] (startTime endTime : R)
    (s : State R) (hopen : s.frame_buffer ≠ none)
    (hwin : 500 ≤ endTime - s.frameTiming.lastTime) :
    (tinygl_render startTime endTime s).frameTiming.fps =
        (((s.frameTiming.frameNumber + 1) % 2 ^ 32 : Nat) : R) /
          ((endTime - s.frameTiming.lastTime) / 500) ∧
      (tinygl_render startTime endTime s).frameTiming.frameNumber = 0 ∧
      (tinygl_render startTime endTime s).frameTiming.lastTime = endTime ∧
      (s.frameTiming.frameNumber = 29 → endTime - s.frameTiming.lastTime = 500 →
        (tinygl_render startTime endTime s).frameTiming.fps = 30) := by
  rw [tinygl_render_window startTime endTime s hopen hwin]
  refine ⟨rfl, rfl, rfl, ?_⟩
  intro h29 h500
  simp only [h29, h500]
  norm_num

/-- Witness of C3: the 30th frame of `sampleTimed` ends exactly 500 ms
after the window start. -/
theorem fps_recomputed_after_window_witness :
    sampleTimed.frame_buffer ≠ none ∧
      (500 : ℚ) ≤ 1500 - sampleTimed.frameTiming.lastTime ∧
      (tinygl_render 1490 1500 sampleTimed).frameTiming.fps = 30 ∧
      (tinygl_render 1490 1500 sampleTimed).frameTiming.frameNumber = 0 ∧
      (tinygl_render 1490 1500 sampleTimed).frameTiming.lastTime = 1500 :=
  have h := fps_recomputed_after_window 1490 1500 sampleTimed sampleTimed_open
    sampleTimed_window
  ⟨sampleTimed_open, sampleTimed_window,
    h.2.2.2 rfl (by show (1500 : ℚ) - 1000 = 500; norm_num), h.2.1, h.2.2.1⟩

/-- At every window recomputation the stored fps is half the number of
frames per second of the window. -/
theorem fps_is_half_of_frames_per_second {R : Type} [LinearOrderedField R]
    (startTime endTime : R) (s : State R) (hopen : s.frame_buffer ≠ none)
    (hwin : 500 ≤ endTime - s.frameTiming.lastTime) :
    2 * (tinygl_render startTime endTime s).frameTiming.fps =
      (((s.frameTiming.frameNumber + 1) % 2 ^ 32 : Nat) : R) * 1000 /
        (endTime - s.frameTiming.lastTime) := by
  rw [tinygl_render_window startTime endTime s hopen hwin]
  have hpos : endTime - s.frameTiming.lastTime ≠ 0 := by
    have : (0 : R) < endTime - s.frameTiming.lastTime := lt_of_lt_of_le (by norm_num) hwin
    exact ne_of_gt this
  field_simp
  ring

/-- C10, the code at a failing input: after 30 frames in a window of
exactly 500 ms `tinygl_render` stores fps = 30, while the frames per
second of that window, framesAccumulated * 1000 / elapsedMs, are 60. -/
theorem fps_30_frames_in_500ms_is_30_not_60 :
    (tinygl_render 1490 1500 sampleTimed).frameTiming.fps = 30 ∧
      (((sampleTimed.frameTiming.frameNumber + 1) % 2 ^ 32 : Nat) : ℚ) * 1000 /
        (1500 - sampleTimed.frameTiming.lastTime) = 60 ∧
      (tinygl_render 1490 1500 sampleTimed).frameTiming.fps ≠
        (((sampleTimed.frameTiming.frameNumber + 1) % 2 ^ 32 : Nat) : ℚ) * 1000 /
          (1500 - sampleTimed.frameTiming.lastTime) := by
  rw [tinygl_render_window 1490 1500 sampleTimed sampleTimed_open sampleTimed_window]
  show (((29 + 1) % 2 ^ 32 : Nat) : ℚ) / ((1500 - 1000) / 500) = 30 ∧
    (((29 + 1) % 2 ^ 32 : Nat) : ℚ) * 1000 / (1500 - 1000) = 60 ∧
    (((29 + 1) % 2 ^ 32 : Nat) : ℚ) / ((1500 - 1000) / 500) ≠
      (((29 + 1) % 2 ^ 32 : Nat) : ℚ) * 1000 / (1500 - 1000)
  norm_num

/-! ## The overlay pass and the matrix stacks -/

/-- From matrix mode MODELVIEW the overlay pass leaves the current
modelview matrix and the whole projection stack as they were, but one
more saved matrix on the modelview stack: it pushes that stack twice and
pops it once. -/
theorem render_fps_counter_stacks {R : Type} [Zero R] [One R] (s : State R)
    (hmode : s.gl.matrix_mode = .GL_MODELVIEW) :
    (render_fps_counter s).gl.modelview =
        { top := s.gl.modelview.top, saved := s.gl.modelview.top :: s.gl.modelview.saved } ∧
      (render_fps_counter s).gl.projection = s.gl.projection ∧
      (render_fps_counter s).gl.matrix_mode = .GL_MODELVIEW := by
  simp [render_fps_counter, glPushMatrix, glPopMatrix, glMatrixMode, glLoadIdentity, glDrawText,
    GLContext.current, GLContext.setCurrent, hmode]

/-- C4, the code at a failing input: on the freshly initialised session
`sampleState` (matrix mode MODELVIEW, one matrix on the modelview stack)
one overlay pass leaves two matrices on the modelview stack and a second
pass three, while the projection stack keeps its depth. -/
theorem overlay_pass_grows_modelview_stack :
    sampleState.gl.matrix_mode = .GL_MODELVIEW ∧
      sampleState.gl.modelview.depth = 1 ∧
      (render_fps_counter sampleState).gl.modelview.depth = 2 ∧
      (render_fps_counter (render_fps_counter sampleState)).gl.modelview.depth = 3 ∧
      (render_fps_counter sampleState).gl.projection.depth =
        sampleState.gl.projection.depth := by
  refine ⟨rfl, rfl, rfl, rfl, rfl⟩

/-! ## Camera -/

/-- C5: for every camera pose and every distance d,
`tinygl_move_camera_forward(d)` followed by
`tinygl_move_camera_backward(d)` leaves `camera.position` equal to the
initial position, in exact arithmetic over any field. -/
theorem move_forward_then_backward_restores_position {R : Type} [Field R] (E : Extern R)
    (d : R) (s : State R) :
    (tinygl_move_camera_backward E d (tinygl_move_camera_forward E d s)).camera.position =
      s.camera.position := by
  simp only [tinygl_move_camera_backward, tinygl_move_camera_forward, tinygl_update_camera_view,
    add_vec3]
  cases hp : s.camera.position with
  | mk x y z => simp

theorem glLoadMatrixf_top {R : Type} (m : Mat4 R) (c : GLContext R) :
    (glLoadMatrixf m c).current.top = m := by
  cases hm : c.matrix_mode <;> simp [glLoadMatrixf, GLContext.current, GLContext.setCurrent, hm]

theorem update_view_recomputed {R : Type} [Add R] (E : Extern R) (s0 s : State R)
    (h : s.gl.loads = s0.gl.loads) :
    ViewRecomputed E s0 (tinygl_update_camera_view E s) := by
  refine ⟨rfl, ?_, glLoadMatrixf_top _ _⟩
  cases hm : s.gl.matrix_mode <;>
    simp [tinygl_update_camera_view, glLoadMatrixf, GLContext.setCurrent, hm, h]

/-! ## Initialisation -/

theorem tinygl_init_cases {R : Type} [LinearOrderedField R] (E : Extern R)
    (width height render_bits : Int) (frame_buffer_mem : Option Nat) (junk : Nat → Nat)
    (zb_ok : Bool) (now : R) (s : State R) :
    ((render_bits = 32 ∨ render_bits = 16) ∧ frame_buffer_mem.isSome = true ∧ zb_ok = true ∧
        (tinygl_init E width height render_bits frame_buffer_mem junk zb_ok now s).2 = 0) ∨
      (¬ ((render_bits = 32 ∨ render_bits = 16) ∧ frame_buffer_mem.isSome = true ∧
            zb_ok = true) ∧
        (tinygl_init E width height render_bits frame_buffer_mem junk zb_ok now s).2 = -1) := by
  by_cases h32 : render_bits = 32 <;> by_cases h16 : render_bits = 16 <;>
    cases frame_buffer_mem <;> cases zb_ok <;> simp [tinygl_init, h32, h16]

theorem tinygl_init_view {R : Type} [LinearOrderedField R] (E : Extern R)
    (width height render_bits : Int) (frame_buffer_mem : Option Nat) (junk : Nat → Nat)
    (zb_ok : Bool) (now : R) (s : State R)
    (hinit : (tinygl_init E width height render_bits frame_buffer_mem junk zb_ok now s).2 = 0) :
    ViewRecomputed E s
      (tinygl_init E width height render_bits frame_buffer_mem junk zb_ok now s).1 := by
  by_cases h32 : render_bits = 32 <;> by_cases h16 : render_bits = 16 <;>
    cases frame_buffer_mem <;> cases zb_ok <;>
    simp [tinygl_init, h32, h16] at hinit ⊢ <;>
    exact update_view_recomputed E s _ rfl

/-- C6: after a successful `tinygl_init`, and after `tinygl_set_camera`,
each of the four `tinygl_move_camera_*` operations and
`tinygl_rotate_camera` from any state, `camera.view_matrix` equals
lookAt(position, position + forward, up) for the pose the operation left,
and the operation handed that matrix to `glLoadMatrixf` exactly once. -/
theorem view_matrix_is_lookAt_after_every_operation {R : Type} [LinearOrderedField R]
    (E : Extern R) (width height render_bits : Int) (frame_buffer_mem : Option Nat)
    (junk : Nat → Nat) (zb_ok : Bool) (now : R) (s : State R)
    (hinit : (tinygl_init E width height render_bits frame_buffer_mem junk zb_ok now s).2 = 0) :
    ViewRecomputed E s
        (tinygl_init E width height render_bits frame_buffer_mem junk zb_ok now s).1 ∧
      ∀ (t : State R) (eye location up : Vec3 R) (distance yaw pitch : R),
        ViewRecomputed E t (tinygl_set_camera E eye location up t) ∧
        ViewRecomputed E t (tinygl_move_camera_forward E distance t) ∧
        ViewRecomputed E t (tinygl_move_camera_backward E distance t) ∧
        ViewRecomputed E t (tinygl_move_camera_left E distance t) ∧
        ViewRecomputed E t (tinygl_move_camera_right E distance t) ∧
        ViewRecomputed E t (tinygl_rotate_camera E yaw pitch t) := by
  refine ⟨tinygl_init_view E width height render_bits frame_buffer_mem junk zb_ok now s hinit,
    ?_⟩
  intro t eye location up distance yaw pitch
  exact ⟨update_view_recomputed E t _ rfl, update_view_recomputed E t _ rfl,
    update_view_recomputed E t _ rfl, update_view_recomputed E t _ rfl,
    update_view_recomputed E t _ rfl, update_view_recomputed E t _ rfl⟩

/-- Witness of C6: `tinygl_init(2, 2, 16)` succeeds from program start,
and a rotation of the session `sampleState`. -/
theorem view_matrix_is_lookAt_after_every_operation_witness :
    (tinygl_init sampleExtern 2 2 16 (some 100) (fun i => 0xF800 + i) true 0
        State.initial).2 = 0 ∧
      ViewRecomputed sampleExtern State.initial
        (tinygl_init sampleExtern 2 2 16 (some 100) (fun i => 0xF800 + i) true 0
          State.initial).1 ∧
      ViewRecomputed sampleExtern sampleState
        (tinygl_rotate_camera sampleExtern 1 2 sampleState) :=
  have h0 : (tinygl_init sampleExtern 2 2 16 (some 100) (fun i => 0xF800 + i) true 0
      State.initial).2 = 0 := rfl
  have h := view_matrix_is_lookAt_after_every_operation sampleExtern 2 2 16 (some 100)
    (fun i => 0xF800 + i) true 0 State.initial h0
  ⟨h0, h.1, (h.2 sampleState ⟨0, 0, 0⟩ ⟨0, 0, 0⟩ ⟨0, 0, 0⟩ 0 1 2).2.2.2.2.2⟩

/-- C8: `tinygl_init` returns 0 exactly when render_bits is 32 or 16 and
both `aligned_alloc` and `ZB_open` succeed; every other status is -1; and
for an unsupported render_bits no allocator call and no `ZB_open` call is
made, the heap and `frame_buffer` are untouched, so that from program
start `tinygl_get_framebuffer` still returns NULL. -/
theorem tinygl_init_status {R : Type} [LinearOrderedField R] (E : Extern R)
    (width height render_bits : Int) (frame_buffer_mem : Option Nat) (junk : Nat → Nat)
    (zb_ok : Bool) (now : R) (s : State R) :
    ((tinygl_init E width height render_bits frame_buffer_mem junk zb_ok now s).2 = 0 ↔
        (render_bits = 32 ∨ render_bits = 16) ∧ frame_buffer_mem.isSome = true ∧
          zb_ok = true) ∧
      ((tinygl_init E width height render_bits frame_buffer_mem junk zb_ok now s).2 ≠ 0 →
        (tinygl_init E width height render_bits frame_buffer_mem junk zb_ok now s).2 = -1) ∧
      (¬ (render_bits = 32 ∨ render_bits = 16) →
        (tinygl_init E width height render_bits frame_buffer_mem junk zb_ok now s).1.heap.allocs
            = s.heap.allocs ∧
          (tinygl_init E width height render_bits frame_buffer_mem junk zb_ok now s).1.heap.mem
            = s.heap.mem ∧
          (tinygl_init E width height render_bits frame_buffer_mem junk zb_ok now s).1.zb_opens
            = s.zb_opens ∧
          (tinygl_init E width height render_bits frame_buffer_mem junk zb_ok now
            s).1.frame_buffer = s.frame_buffer ∧
          tinygl_get_framebuffer
            (tinygl_init E width height render_bits frame_buffer_mem junk zb_ok now
              State.initial).1 = none) := by
  refine ⟨?_, ?_, ?_⟩
  · rcases tinygl_init_cases E width height render_bits frame_buffer_mem junk zb_ok now s with
      ⟨hb, hm, hz, hr⟩ | ⟨hn, hr⟩
    · exact ⟨fun _ => ⟨hb, hm, hz⟩, fun _ => hr⟩
    · rw [hr]
      exact ⟨fun h => absurd h (by decide), fun h => absurd h hn⟩
  · intro hne
    rcases tinygl_init_cases E width height render_bits frame_buffer_mem junk zb_ok now s with
      ⟨_, _, _, hr⟩ | ⟨_, hr⟩
    · exact absurd hr hne
    · exact hr
  · intro hbits
    have h32 : render_bits ≠ 32 := fun h => hbits (Or.inl h)
    have h16 : render_bits ≠ 16 := fun h => hbits (Or.inr h)
    simp [tinygl_init, h32, h16, tinygl_get_framebuffer, State.initial]

/-- Witness of C8: `tinygl_init(240, 320, 24)` at program start, with an
allocator and a `ZB_open` that would both succeed. -/
theorem tinygl_init_status_witness :
    (tinygl_init sampleExtern 240 320 24 (some 100) (fun _ => 0) true 0 State.initial).2 = -1 ∧
      (tinygl_init sampleExtern 240 320 24 (some 100) (fun _ => 0) true 0
        State.initial).1.heap.allocs = [] ∧
      (tinygl_init sampleExtern 240 320 24 (some 100) (fun _ => 0) true 0
        State.initial).1.zb_opens = [] ∧
      tinygl_get_framebuffer
        (tinygl_init sampleExtern 240 320 24 (some 100) (fun _ => 0) true 0
          State.initial).1 = none :=
  have h := tinygl_init_status sampleExtern 240 320 24 (some 100) (fun _ => 0) true 0
    State.initial
  have hb : ¬ ((24 : Int) = 32 ∨ (24 : Int) = 16) := by decide
  ⟨h.2.1 (fun h0 => hb ((h.1.mp h0).1)), (h.2.2 hb).1, (h.2.2 hb).2.2.1, (h.2.2 hb).2.2.2.2⟩

/-! ## Cleanup -/

/-- After a successful `lvgl_init` the releases of `lvgl_cleanup` are
buffer 1 (as the canvas buffer), buffer 1 again and buffer 2. -/
theorem lvgl_cleanup_frees {R : Type} (E : Extern R) (width height : Int) (b1 b2 : Nat)
    (junk : Nat → Nat) (s : State R) :
    (lvgl_init E width height (some b1) (some b2) junk true s).2 = 0 ∧
      (lvgl_cleanup (lvgl_init E width height (some b1) (some b2) junk true s).1).heap.frees =
        s.heap.frees ++ [b1, b1, b2] := by
  simp [lvgl_init, lvgl_cleanup, Heap.free, Heap.allocate, Heap.fill]

/-- C9, the code at a failing input: after the successful `lvgl_init` of
`sampleState` (buffers at 200 and 300) `lvgl_cleanup` calls `free` on
200, 200 and 300, so buffer 1 is released twice; the canvas handle is
cleared and a second `lvgl_cleanup` releases nothing more. -/
theorem cleanup_frees_buffer1_twice :
    sampleState.lvgl_buffer1 = some 200 ∧ sampleState.lvgl_buffer2 = some 300 ∧
      (lvgl_cleanup sampleState).heap.frees = [200, 200, 300] ∧
      (lvgl_cleanup sampleState).heap.frees.count 200 = 2 ∧
      (lvgl_cleanup sampleState).canvas = none ∧
      (lvgl_cleanup (lvgl_cleanup sampleState)).heap.frees =
        (lvgl_cleanup sampleState).heap.frees := by
  refine ⟨rfl, rfl, rfl, rfl, rfl, rfl⟩

/-! ## Frame timing inside a window -/

theorem tinygl_render_inside_window {R : Type} [LinearOrderedField R] (startTime endTime : R)
    (s : State R) (hopen : s.frame_buffer ≠ none)
    (hwin : endTime - s.frameTiming.lastTime < 500) :
    (tinygl_render startTime endTime s).frameTiming =
      { frameNumber := (s.frameTiming.frameNumber + 1) % 2 ^ 32,
        lastTime := s.frameTiming.lastTime,
        fps := s.frameTiming.fps,
        renderTime := endTime - startTime } := by
  cases hfb : s.frame_buffer with
  | none => exact absurd hfb hopen
  | some zb =>
    have hlt : ¬ (endTime - s.frameTiming.lastTime ≥ 500) := not_le.mpr hwin
    simp only [tinygl_render, hfb, hlt, if_false, render_fps_counter_frameTiming]

theorem tinygl_render_fps_changes {R : Type} [LinearOrderedField R] (startTime endTime : R)
    (s : State R)
    (hfps : (tinygl_render startTime endTime s).frameTiming.fps ≠ s.frameTiming.fps) :
    500 ≤ endTime - s.frameTiming.lastTime := by
  by_contra hwin
  have hlt : endTime - s.frameTiming.lastTime < 500 := not_le.mp hwin
  apply hfps
  cases hfb : s.frame_buffer with
  | none => simp only [tinygl_render, hfb]
  | some zb =>
    rw [tinygl_render_inside_window startTime endTime s (by simp [hfb]) hlt]

theorem sampleTimed_inside : (1100 : ℚ) - sampleTimed.frameTiming.lastTime < 500 := by
  show (1100 : ℚ) - 1000 < 500
  norm_num

theorem sampleWrapped_open : sampleWrapped.frame_buffer ≠ none := by decide

theorem sampleWrapped_inside : (0 : ℚ) - sampleWrapped.frameTiming.lastTime < 500 := by
  show (0 : ℚ) - 0 < 500
  norm_num

/-- C11 as amended: in a `tinygl_render` step on an open session whose
elapsed time endTime - lastTime is less than 500 ms, fps and lastTime are
left unchanged and frameNumber becomes (frameNumber + 1) mod 2^32, an
increase by exactly 1 whenever frameNumber was below 2^32 - 1; and in any
step, fps changes only when the elapsed time is at least 500 ms. -/
theorem frame_counter_inside_window {R : Type} [LinearOrderedField R] (startTime endTime : R)
    (s : State R) (hopen : s.frame_buffer ≠ none)
    (hwin : endTime - s.frameTiming.lastTime < 500) :
    (tinygl_render startTime endTime s).frameTiming.fps = s.frameTiming.fps ∧
      (tinygl_render startTime endTime s).frameTiming.lastTime = s.frameTiming.lastTime ∧
      (tinygl_render startTime endTime s).frameTiming.frameNumber =
        (s.frameTiming.frameNumber + 1) % 2 ^ 32 ∧
      (s.frameTiming.frameNumber < 2 ^ 32 - 1 →
        (tinygl_render startTime endTime s).frameTiming.frameNumber =
          s.frameTiming.frameNumber + 1) ∧
      ∀ (a b : R) (t : State R),
        (tinygl_render a b t).frameTiming.fps ≠ t.frameTiming.fps →
          500 ≤ b - t.frameTiming.lastTime := by
  rw [tinygl_render_inside_window startTime endTime s hopen hwin]
  refine ⟨rfl, rfl, rfl, ?_, fun a b t h => tinygl_render_fps_changes a b t h⟩
  intro hsmall
  show (s.frameTiming.frameNumber + 1) % 2 ^ 32 = s.frameTiming.frameNumber + 1
  apply Nat.mod_eq_of_lt
  omega

/-- Witness of C11 as amended: the 30th frame of `sampleTimed` ends 100 ms
after the window start. -/
theorem frame_counter_inside_window_witness :
    sampleTimed.frame_buffer ≠ none ∧
      (1100 : ℚ) - sampleTimed.frameTiming.lastTime < 500 ∧
      (tinygl_render 1090 1100 sampleTimed).frameTiming.fps = 0 ∧
      (tinygl_render 1090 1100 sampleTimed).frameTiming.lastTime = 1000 ∧
      (tinygl_render 1090 1100 sampleTimed).frameTiming.frameNumber = 30 :=
  have h := frame_counter_inside_window 1090 1100 sampleTimed sampleTimed_open
    sampleTimed_inside
  ⟨sampleTimed_open, sampleTimed_inside, h.1, h.2.1, h.2.2.2.1 (by decide)⟩

/-- Counterexample to C11 as stated: on the open session `sampleWrapped`
(frameNumber = 4294967295, lastTime = 0) a step with both clock readings
0 has elapsed time 0 < 500 ms, and frameNumber becomes 0 instead of
increasing by 1. -/
theorem frame_counter_wraps_inside_window :
    sampleWrapped.frame_buffer ≠ none ∧
      (0 : ℚ) - sampleWrapped.frameTiming.lastTime < 500 ∧
      sampleWrapped.frameTiming.frameNumber = 4294967295 ∧
      (tinygl_render 0 0 sampleWrapped).frameTiming.frameNumber = 0 ∧
      (tinygl_render 0 0 sampleWrapped).frameTiming.frameNumber ≠
        sampleWrapped.frameTiming.frameNumber + 1 := by
  rw [tinygl_render_inside_window 0 0 sampleWrapped sampleWrapped_open sampleWrapped_inside]
  exact ⟨sampleWrapped_open, sampleWrapped_inside, rfl, by decide, by decide⟩

/-! ## Reads of the native framebuffer -/

theorem convert_loop_add {R : Type} (E : Extern R) (fb cb : Nat) :
    ∀ (n m i : Nat) (h : Heap),
      convert_loop E fb cb (n + m) i h =
        match convert_loop E fb cb n i h with
        | none => none
        | some h1 => convert_loop E fb cb m (i + n) h1 := by
  intro n
  induction n with
  | zero =>
    intro m i h
    simp [convert_loop]
  | succ n ih =>
    intro m i h
    rw [show n + 1 + m = (n + m) + 1 by omega]
    simp only [convert_loop]
    cases hstep : convert_step E fb cb i h with
    | none => rfl
    | some h1 =>
      simp only []
      rw [ih m (i + 1) h1, show i + (n + 1) = i + 1 + n by omega]

theorem after_both_inits {R : Type} [LinearOrderedField R] (E : Extern R)
    (fw fh dw dh fb cb b2 : Nat) (h1 : fb ≠ cb) (h2 : fb ≠ b2)
    (junk junk1 : Nat → Nat) (now : R) (s : State R) :
    (tinygl_init E fw fh 16 (some fb) junk true now s).2 = 0 ∧
      (lvgl_init E dw dh (some cb) (some b2) junk1 true
        (tinygl_init E fw fh 16 (some fb) junk true now s).1).2 = 0 ∧
      tinygl_get_framebuffer (lvgl_init E dw dh (some cb) (some b2) junk1 true
        (tinygl_init E fw fh 16 (some fb) junk true now s).1).1 = some fb ∧
      (lvgl_init E dw dh (some cb) (some b2) junk1 true
        (tinygl_init E fw fh 16 (some fb) junk true now s).1).1.heap.mem fb =
          some ((List.range (fw * fh)).map junk) ∧
      (lvgl_init E dw dh (some cb) (some b2) junk1 true
        (tinygl_init E fw fh 16 (some fb) junk true now s).1).1.canvas =
          some { buf := some cb, w := dw, h := dh, invalidated := 0 } ∧
      (lvgl_init E dw dh (some cb) (some b2) junk1 true
        (tinygl_init E fw fh 16 (some fb) junk true now s).1).1.heap.mem cb =
          some (List.replicate (dw * dh) (E.LV_COLOR_MAKE 0 0 0)) ∧
      (lvgl_init E dw dh (some cb) (some b2) junk1 true
        (tinygl_init E fw fh 16 (some fb) junk true now s).1).1.display_width = dw ∧
      (lvgl_init E dw dh (some cb) (some b2) junk1 true
        (tinygl_init E fw fh 16 (some fb) junk true now s).1).1.display_height = dh := by
  have hf : ((fw : Int) * (fh : Int)).toNat = fw * fh := by
    rw [← Nat.cast_mul, Int.toNat_natCast]
  have hd : ((dw : Int) * (dh : Int)).toNat = dw * dh := by
    rw [← Nat.cast_mul, Int.toNat_natCast]
  simp [lvgl_init, tinygl_init, tinygl_update_camera_view, tinygl_get_framebuffer,
    Heap.allocate, Heap.fill, hf, hd, h1, h2, Ne.symm h1, Ne.symm h2]

/-- In a 16-bit build, whenever both initialisations succeed and the
display has more pixels than the renderer, the conversion loop runs its
first fw*fh turns and then reads `fb_16[fw*fh]`, one past the end of the
native buffer: `lvgl_update_canvas` has no defined behaviour. -/
theorem update_canvas_overruns {R : Type} [LinearOrderedField R] (E : Extern R)
    (hbits : E.TGL_FEATURE_RENDER_BITS = 16) (fw fh dw dh fb cb b2 : Nat)
    (h1 : fb ≠ cb) (h2 : fb ≠ b2) (hsmall : fw * fh < dw * dh)
    (junk junk1 : Nat → Nat) (now : R) (s : State R) :
    ∃ hp, convert_loop E fb cb (fw * fh) 0
          (lvgl_init E dw dh (some cb) (some b2) junk1 true
            (tinygl_init E fw fh 16 (some fb) junk true now s).1).1.heap = some hp ∧
      hp.read fb (fw * fh) = none ∧
      lvgl_update_canvas E
        (lvgl_init E dw dh (some cb) (some b2) junk1 true
          (tinygl_init E fw fh 16 (some fb) junk true now s).1).1 = none := by
  obtain ⟨-, -, hget, hfb, hcv, hcb, hdw, hdh⟩ :=
    after_both_inits E fw fh dw dh fb cb b2 h1 h2 junk junk1 now s
  generalize (lvgl_init E dw dh (some cb) (some b2) junk1 true
    (tinygl_init E fw fh 16 (some fb) junk true now s).1).1 = s2 at hget hfb hcv hcb hdw hdh ⊢
  obtain ⟨hp, cells1, hrun, -, -, -, hother, -, -⟩ :=
    convert_loop_spec E fb cb h1 ((List.range (fw * fh)).map junk) (fw * fh) 0 s2.heap
      (List.replicate (dw * dh) (E.LV_COLOR_MAKE 0 0 0)) hfb hcb (by simp)
      (by simp; omega)
  have hread : hp.read fb (fw * fh) = none := by
    simp [Heap.read, hother fb h1, hfb]
  refine ⟨hp, hrun, hread, ?_⟩
  have hd : ((dw : Int) * (dh : Int)).toNat = dw * dh := by
    rw [← Nat.cast_mul, Int.toNat_natCast]
  obtain ⟨k, hk⟩ : ∃ k, dw * dh = fw * fh + (k + 1) := ⟨dw * dh - fw * fh - 1, by omega⟩
  have hloop : convert_loop E fb cb (dw * dh) 0 s2.heap = none := by
    rw [hk, convert_loop_add, hrun]
    simp [convert_loop, convert_step, hread]
  simp [lvgl_update_canvas, hget, hcv, hbits, hdw, hdh, hd, hloop]

/-- C12, the code at a failing input: with the sizes `main` passes both
`tinygl_init(240, 320, 16)` and `lvgl_init(320, 320)` succeed, the loop
bound display_width * display_height exceeds the 240*320 native pixels,
the first 240*320 turns of the loop go through, and the next turn reads
`fb_16[240*320]`, past the end of the native buffer. -/
theorem update_canvas_reads_past_native_buffer :
    (tinygl_init sampleExtern 240 320 16 (some 100) (fun _ => 0) true 0 State.initial).2 = 0 ∧
      (lvgl_init sampleExtern 320 320 (some 200) (some 300) (fun _ => 0) true
        (tinygl_init sampleExtern 240 320 16 (some 100) (fun _ => 0) true 0
          State.initial).1).2 = 0 ∧
      240 * 320 < mainState.display_width * mainState.display_height ∧
      (∃ hp, convert_loop sampleExtern 100 200 (240 * 320) 0 mainState.heap = some hp ∧
        hp.read 100 (240 * 320) = none) ∧
      lvgl_update_canvas sampleExtern mainState = none := by
  have h0 := after_both_inits sampleExtern 240 320 320 320 100 200 300 (by decide) (by decide)
    (fun _ => 0) (fun _ => 0) 0 State.initial
  obtain ⟨hp, hrun, hread, hnone⟩ :=
    update_canvas_overruns sampleExtern rfl 240 320 320 320 100 200 300 (by decide)
      (by decide) (by decide) (fun _ => 0) (fun _ => 0) 0 State.initial
  exact ⟨h0.1, h0.2.1, by decide, ⟨hp, hrun, hread⟩, hnone⟩

/-! ## Rotation keeps the camera basis orthonormal -/

theorem rotate_camera_pose {R : Type} [Zero R] [Add R] [Sub R] [Mul R] (E : Extern R)
    (yaw pitch : R) (s : State R) :
    (tinygl_rotate_camera E yaw pitch s).camera.forward =
        E.normalize_vec3 (pitch_forward_arg E yaw pitch s) ∧
      (tinygl_rotate_camera E yaw pitch s).camera.up =
        E.normalize_vec3 (pitch_up_arg E yaw pitch s) :=
  ⟨rfl, rfl⟩

theorem pitch_up_arg_cross {R : Type} [Zero R] [Add R] [Sub R] [Mul R] (E : Extern R)
    (yaw pitch : R) (s : State R) :
    ∃ a, pitch_up_arg E yaw pitch s =
      cross_vec3 a (E.normalize_vec3 (pitch_forward_arg E yaw pitch s)) :=
  ⟨_, rfl⟩

theorem normalize_unit {R : Type} [LinearOrderedField R] (f : Vec3 R → Vec3 R)
    (hf : SpecNormalize f) (v : Vec3 R) (hv : NonDegenerate v) :
    dot_vec3 (f v) (f v) = 1 := by
  obtain ⟨n, hn, hn0⟩ := hv
  rw [hf v n hn hn0]
  have h2 : n * n = dot_vec3 v v := hn.2
  simp only [dot_vec3] at h2 ⊢
  field_simp
  linear_combination -h2

theorem normalize_cross_orthogonal {R : Type} [LinearOrderedField R] (f : Vec3 R → Vec3 R)
    (hf : SpecNormalize f) (a w : Vec3 R) (hv : NonDegenerate (cross_vec3 a w)) :
    dot_vec3 w (f (cross_vec3 a w)) = 0 := by
  obtain ⟨n, hn, hn0⟩ := hv
  rw [hf _ n hn hn0]
  simp only [dot_vec3, cross_vec3]
  field_simp
  ring

/-- One `tinygl_rotate_camera` call from any state leaves forward and up
unit and orthogonal, when the two vectors normalised in its pitch step
are non-degenerate; nothing is assumed of `rotate`, `multvec3` and
`right_vec3`. -/
theorem rotate_camera_orthonormal {R : Type} [LinearOrderedField R] (E : Extern R)
    (hnorm : SpecNormalize E.normalize_vec3) (yaw pitch : R) (s : State R)
    (hf : NonDegenerate (pitch_forward_arg E yaw pitch s))
    (hu : NonDegenerate (pitch_up_arg E yaw pitch s)) :
    Orthonormal (tinygl_rotate_camera E yaw pitch s).camera := by
  obtain ⟨h1, h2⟩ := rotate_camera_pose E yaw pitch s
  obtain ⟨a, ha⟩ := pitch_up_arg_cross E yaw pitch s
  refine ⟨?_, ?_, ?_⟩
  · rw [h1]; exact normalize_unit _ hnorm _ hf
  · rw [h2]; exact normalize_unit _ hnorm _ hu
  · rw [h1, h2, ha]
    exact normalize_cross_orthogonal _ hnorm _ _ (ha ▸ hu)

theorem orthonormal_within {R : Type} [LinearOrderedField R] (c : Camera R)
    (h : Orthonormal c) : WithinTolerance c := by
  obtain ⟨hf, hu, hfu⟩ := h
  have key : ∀ (n : R) (v : Vec3 R), dot_vec3 v v = 1 → IsLength n v →
      |n - 1| ≤ 1 / 100000 := by
    intro n v hv hn
    have h1 : n * n = 1 := by rw [hn.2, hv]
    have h2 : (n - 1) * (n + 1) = 0 := by linear_combination h1
    have h3 : n + 1 ≠ 0 := by have := hn.1; intro h; linarith
    have h4 : n - 1 = 0 := (mul_eq_zero.mp h2).resolve_right h3
    rw [h4, abs_zero]
    positivity
  refine ⟨fun n hn => key n _ hf hn, fun n hn => key n _ hu hn, ?_⟩
  rw [hfu, abs_zero]
  positivity

/-- Over the reals the non-degenerate vectors are exactly the vectors
other than zero. -/
theorem nonDegenerate_real (v : Vec3 ℝ) : NonDegenerate v ↔ v ≠ ⟨0, 0, 0⟩ := by
  have hnn : 0 ≤ dot_vec3 v v := by
    simp only [dot_vec3]
    nlinarith [mul_self_nonneg v.x, mul_self_nonneg v.y, mul_self_nonneg v.z]
  constructor
  · rintro ⟨n, ⟨-, hn⟩, hn0⟩ hv
    apply hn0
    rw [hv] at hn
    simp only [dot_vec3] at hn
    have : n * n = 0 := by rw [hn]; ring
    exact mul_self_eq_zero.mp this
  · intro hv
    refine ⟨Real.sqrt (dot_vec3 v v), ⟨Real.sqrt_nonneg _, Real.mul_self_sqrt hnn⟩, ?_⟩
    intro h0
    have hz : dot_vec3 v v = 0 := by
      have := Real.mul_self_sqrt hnn
      rw [h0] at this
      linarith
    apply hv
    simp only [dot_vec3] at hz
    have hx : v.x = 0 := by
      nlinarith [mul_self_nonneg v.x, mul_self_nonneg v.y, mul_self_nonneg v.z]
    have hy : v.y = 0 := by
      nlinarith [mul_self_nonneg v.x, mul_self_nonneg v.y, mul_self_nonneg v.z]
    have hzz : v.z = 0 := by
      nlinarith [mul_self_nonneg v.x, mul_self_nonneg v.y, mul_self_nonneg v.z]
    cases v
    simp_all

/-- Over the reals, division by the square root of v.v is a
`normalize_vec3` as the spec describes it. -/
theorem specNormalize_real :
    SpecNormalize (fun v : Vec3 ℝ =>
      { x := v.x / Real.sqrt (dot_vec3 v v)
        y := v.y / Real.sqrt (dot_vec3 v v)
        z := v.z / Real.sqrt (dot_vec3 v v) }) := by
  intro v n hn _
  have h : Real.sqrt (dot_vec3 v v) = n := by
    rw [← hn.2, Real.sqrt_mul_self hn.1]
  simp only [h]

/-- C7: on a camera whose forward and up are unit and orthogonal, after
any sequence of `tinygl_rotate_camera(yaw, pitch)` calls with
non-degenerate inputs, and after every initial part of it, forward and up
are unit and orthogonal in exact arithmetic, so |forward| and |up| are
within 1e-5 of 1.0 and forward.up is within 1e-4 of 0; `normalize_vec3`
is the spec's v / |v|, and `rotate`, `multvec3` and `right_vec3` are
arbitrary. -/
theorem rotate_sequence_keeps_orthonormal {R : Type} [LinearOrderedField R] (E : Extern R)
    (hnorm : SpecNormalize E.normalize_vec3) (calls : List (R × R)) (s : State R)
    (hstart : Orthonormal s.camera) (hnd : SequenceNonDegenerate E calls s) (k : Nat) :
    Orthonormal (rotate_sequence E (calls.take k) s).camera ∧
      WithinTolerance (rotate_sequence E (calls.take k) s).camera := by
  suffices h : Orthonormal (rotate_sequence E (calls.take k) s).camera from
    ⟨h, orthonormal_within _ h⟩
  induction calls generalizing s k with
  | nil => simpa [rotate_sequence] using hstart
  | cons call rest ih =>
    obtain ⟨yaw, pitch⟩ := call
    cases k with
    | zero => simpa [rotate_sequence] using hstart
    | succ k =>
      obtain ⟨hf, hu, hrest⟩ := hnd
      simp only [List.take_succ_cons, rotate_sequence]
      exact ih _ (rotate_camera_orthonormal E hnorm yaw pitch s hf hu) hrest k

theorem sampleRotate_normalize : SpecNormalize sampleRotate.normalize_vec3 := by
  intro v n hn _
  have h : Rat.sqrt (dot_vec3 v v) = n := by
    rw [← hn.2, Rat.sqrt_eq, abs_of_nonneg hn.1]
  show ({ x := v.x / Rat.sqrt (dot_vec3 v v), y := v.y / Rat.sqrt (dot_vec3 v v),
          z := v.z / Rat.sqrt (dot_vec3 v v) } : Vec3 ℚ) = _
  rw [h]

theorem rat_sqrt_1 : Rat.sqrt 1 = 1 := by
  rw [show (1 : ℚ) = 1 * 1 by norm_num, Rat.sqrt_eq]
  norm_num

theorem rat_sqrt_4 : Rat.sqrt 4 = 2 := by
  rw [show (4 : ℚ) = 2 * 2 by norm_num, Rat.sqrt_eq]
  norm_num

theorem rat_sqrt_9 : Rat.sqrt 9 = 3 := by
  rw [show (9 : ℚ) = 3 * 3 by norm_num, Rat.sqrt_eq]
  norm_num

theorem sampleRotate_call (s : State ℚ) (hf : s.camera.forward = ⟨0, 0, -1⟩)
    (hu : s.camera.up = ⟨0, 1, 0⟩) :
    pitch_forward_arg sampleRotate 2 3 s = ⟨0, 0, -3⟩ ∧
      pitch_up_arg sampleRotate 2 3 s = ⟨0, 1, 0⟩ ∧
      (tinygl_rotate_camera sampleRotate 2 3 s).camera.forward = ⟨0, 0, -1⟩ ∧
      (tinygl_rotate_camera sampleRotate 2 3 s).camera.up = ⟨0, 1, 0⟩ := by
  have hpf : pitch_forward_arg sampleRotate 2 3 s = ⟨0, 0, -3⟩ := by
    simp only [pitch_forward_arg, sampleRotate, sampleExtern, first_three, hf, dot_vec3]
    norm_num [rat_sqrt_4]
  have hpu : pitch_up_arg sampleRotate 2 3 s = ⟨0, 1, 0⟩ := by
    simp only [pitch_up_arg, hpf]
    simp only [sampleRotate, sampleExtern, first_three, cross_vec3, hf, hu, dot_vec3]
    norm_num [rat_sqrt_4, rat_sqrt_9, rat_sqrt_1]
  obtain ⟨h1, h2⟩ := rotate_camera_pose sampleRotate 2 3 s
  refine ⟨hpf, hpu, ?_, ?_⟩
  · rw [h1, hpf]
    simp only [sampleRotate, dot_vec3]
    norm_num [rat_sqrt_9]
  · rw [h2, hpu]
    simp only [sampleRotate, dot_vec3]
    norm_num [rat_sqrt_1]

theorem axis_nonDegenerate (c : ℚ) (hc : c ≠ 0) :
    NonDegenerate (⟨0, 0, c⟩ : Vec3 ℚ) ∧ NonDegenerate (⟨0, c, 0⟩ : Vec3 ℚ) := by
  refine ⟨⟨|c|, ⟨abs_nonneg c, ?_⟩, abs_ne_zero.mpr hc⟩,
    ⟨|c|, ⟨abs_nonneg c, ?_⟩, abs_ne_zero.mpr hc⟩⟩ <;>
  · simp only [dot_vec3]
    rw [abs_mul_abs_self]
    ring

theorem sampleState_orthonormal : Orthonormal sampleState.camera := by
  refine ⟨?_, ?_, ?_⟩ <;>
  · show dot_vec3 (_ : Vec3 ℚ) _ = _
    simp only [dot_vec3]
    norm_num [sampleState, lvgl_init, tinygl_init, tinygl_update_camera_view]

theorem sampleState_sequence :
    SequenceNonDegenerate sampleRotate [(2, 3), (2, 3)] sampleState := by
  obtain ⟨a1, a2, f1, u1⟩ := sampleRotate_call sampleState rfl rfl
  obtain ⟨b1, b2, -, -⟩ :=
    sampleRotate_call (tinygl_rotate_camera sampleRotate 2 3 sampleState) f1 u1
  refine ⟨?_, ?_, ?_, ?_, trivial⟩
  · rw [a1]; exact (axis_nonDegenerate (-3) (by norm_num)).1
  · rw [a2]; exact (axis_nonDegenerate 1 (by norm_num)).2
  · rw [b1]; exact (axis_nonDegenerate (-3) (by norm_num)).1
  · rw [b2]; exact (axis_nonDegenerate 1 (by norm_num)).2

/-- Witness of C7: two calls `tinygl_rotate_camera(2, 3)` on the freshly
initialised session `sampleState` (forward (0, 0, -1), up (0, 1, 0)) with
the parameters `sampleRotate`; the vectors normalised have magnitudes 2,
1, 3 and 1. -/
theorem rotate_sequence_keeps_orthonormal_witness :
    SpecNormalize sampleRotate.normalize_vec3 ∧
      Orthonormal sampleState.camera ∧
      SequenceNonDegenerate sampleRotate [(2, 3), (2, 3)] sampleState ∧
      Orthonormal
        (rotate_sequence sampleRotate (List.take 2 [(2, 3), (2, 3)]) sampleState).camera ∧
      WithinTolerance
        (rotate_sequence sampleRotate (List.take 2 [(2, 3), (2, 3)]) sampleState).camera :=
  have h := rotate_sequence_keeps_orthonormal sampleRotate sampleRotate_normalize
    [(2, 3), (2, 3)] sampleState sampleState_orthonormal sampleState_sequence 2
  ⟨sampleRotate_normalize, sampleState_orthonormal, sampleState_sequence, h.1, h.2⟩

end TinyGLES
